import Mathlib

/-!
Shallow embedding of the kickstart generation engine (src/src/template.rs).

The embedding translates the Rust source into executable Lean definitions:

* TOML values (the subset that appears in a template definition) become the
  inductive type TVal.  The Rust code only ever pattern-matches on the tag
  and compares values for equality, so the variants Float, Array, Table and
  Datetime of toml::Value, which all take the catch-all match arm in
  Template::ask_questions, are represented by the single stand-in
  constructor TVal.datetime carrying its literal text.
* The answer map (a Rust HashMap from String to toml::Value) becomes an
  association list with replace-on-insert semantics, so each key occurs at
  most once, under the name Ctx.
* Fallible Rust code returning Result becomes the Outcome type; a Rust
  process abort (a panic, including an unwrap failure) is the separate
  constructor Outcome.crash, so that error returns and panics stay
  distinguishable.
* External collaborators (the interactive prompt functions, the Tera
  template engine, the binary-content heuristic and the filesystem) are
  parameters of the embedded functions, exactly at the boundary the code
  calls them.
* Filesystem effects of Template::generate are materialized as a list of
  Action values in the order the Rust code performs them.
-/

deriving instance DecidableEq for Except

namespace Kickstart

/-- Subset of toml::Value used by the template definition.  The constructor
datetime stands in for every tag outside Boolean, String and Integer: all of
those take the same catch-all arm in Template::ask_questions and are never
inspected otherwise. -/
inductive TVal where
  | boolean : Bool → TVal
  | string : String → TVal
  | integer : Int → TVal
  | datetime : String → TVal
deriving DecidableEq, Repr

/-- True exactly for the tags the question dispatch in ask_questions
supports (Boolean, String, Integer). -/
def TVal.tagSupported : TVal → Bool
  | .boolean _ => true
  | .string _ => true
  | .integer _ => true
  | .datetime _ => false

/-- only_if condition of a variable: definition.rs Condition with fields
name and value. -/
structure Condition where
  name : String
  value : TVal
deriving DecidableEq, Repr

/-- A variable of the template definition (definition.rs Variable). -/
structure Variable where
  name : String
  prompt : String
  default : TVal
  choices : Option (List TVal) := none
  validation : Option String := none
  only_if : Option Condition := none
deriving DecidableEq, Repr

/-- A cleanup rule (definition.rs Cleanup): trigger variable name, trigger
value and the path templates to delete when the trigger matches. -/
structure CleanupRule where
  name : String
  value : TVal
  paths : List String
deriving DecidableEq, Repr

/-- The parsed template.toml (definition.rs TemplateDefinition).  The field
vars embeds the source field named variables; Lean reserves that word. -/
structure TemplateDefinition where
  vars : List Variable := []
  ignore : List String := []
  copy_without_render : List String := []
  cleanup : List CleanupRule := []
deriving DecidableEq, Repr

/-- The answer map built by ask_questions: a Rust HashMap from variable name
to value, embedded as an association list in which every key occurs at most
once (insert replaces). -/
abbrev Ctx := List (String × TVal)

/-- HashMap::get. -/
def Ctx.get (vals : Ctx) (k : String) : Option TVal :=
  match vals with
  | [] => none
  | (k2, v) :: rest => if k2 = k then some v else Ctx.get rest k

/-- HashMap::insert: replaces any existing entry under the same key. -/
def Ctx.insert (vals : Ctx) (k : String) (v : TVal) : Ctx :=
  (k, v) :: vals.filter (fun p => decide (p.1 ≠ k))

/-- Error kinds of the crate (errors.rs ErrorKind), restricted to the kinds
Template::ask_questions and Template::generate can produce.  The payloads
keep only what the claims inspect: the Tera kind keeps an error message and
the optional offending path, the I/O kind keeps the offending path. -/
inductive ErrKind where
  | git
  | missingTemplateDefinition
  | invalidTemplate
  | tera (msg : String) (path : Option String)
  | ioErr (path : String)
deriving DecidableEq, Repr

/-- Result of running a piece of the engine: a normal return value, an error
returned to the caller, or a process abort (Rust panic, e.g. a failed
unwrap).  Keeping panics as a separate constructor lets theorems distinguish
returning an error from crashing. -/
inductive Outcome (α : Type) where
  | ok : α → Outcome α
  | err : ErrKind → Outcome α
  | crash : String → Outcome α
deriving DecidableEq, Repr

/-- Map over the ok value of an Outcome. -/
def Outcome.map {α β : Type} (f : α → β) : Outcome α → Outcome β
  | .ok a => .ok (f a)
  | .err e => .err e
  | .crash m => .crash m

/-- True exactly on the err constructor. -/
def Outcome.isErr {α : Type} : Outcome α → Bool
  | .ok _ => false
  | .err _ => true
  | .crash _ => false

/-- True exactly on the crash constructor. -/
def Outcome.isCrash {α : Type} : Outcome α → Bool
  | .ok _ => false
  | .err _ => false
  | .crash _ => true

/-- The interactive prompt collaborator (prompt.rs ask_bool, ask_string,
ask_integer, ask_choices).  The answers are parameters: the engine is
deterministic given deterministic prompt answers.  The error path of the
prompt functions is orthogonal to every claim and is not modelled. -/
structure Prompter where
  askBool : String → Bool → Bool
  askString : String → String → Option String → String
  askInteger : String → Int → Int
  askChoices : String → TVal → List TVal → TVal

/-- Loop body of Template::ask_questions after the only_if check: the
choices branch, then the dispatch on the tag of the default value.  The
catch-all arm of the Rust match is a panic. -/
def askVar (pr : Prompter) (var : Variable) (vals : Ctx) : Outcome Ctx :=
  match var.choices with
  | some cs => .ok (Ctx.insert vals var.name (pr.askChoices var.prompt var.default cs))
  | none =>
    match var.default with
    | .boolean b => .ok (Ctx.insert vals var.name (.boolean (pr.askBool var.prompt b)))
    | .string s => .ok (Ctx.insert vals var.name (.string (pr.askString var.prompt s var.validation)))
    | .integer i => .ok (Ctx.insert vals var.name (.integer (pr.askInteger var.prompt i)))
    | .datetime _ => .crash "Unsupported TOML type in a question"

/-- The only_if skip test at the top of the ask_questions loop.  Note the
exact nesting of the Rust code: the variable is skipped only when the
referenced name IS present in the answer map and its value differs from the
expected one; an absent name falls through and the question is asked. -/
def skipVar (vals : Ctx) (var : Variable) : Bool :=
  match var.only_if with
  | some cond =>
    match Ctx.get vals cond.name with
    | some v => decide (v ≠ cond.value)
    | none => false
  | none => false

/-- Template::ask_questions: fold over the variables in declaration order,
skipping per skipVar, otherwise asking and inserting the answer before the
next variable is considered. -/
def askQuestions (pr : Prompter) : List Variable → Ctx → Outcome Ctx
  | [], vals => .ok vals
  | var :: rest, vals =>
    if skipVar vals var then askQuestions pr rest vals
    else
      match askVar pr var vals with
      | .ok vals2 => askQuestions pr rest vals2
      | .err e => .err e
      | .crash m => .crash m

/-- A prompt collaborator that answers every question with its default
value, used to instantiate theorems on concrete inputs. -/
def defPrompter : Prompter where
  askBool := fun _ d => d
  askString := fun _ d _ => d
  askInteger := fun _ d => d
  askChoices := fun _ d _ => d

/-! ## Glob patterns

Embedding of the glob crate as used by the code: Pattern::new compiles a
pattern string (possibly failing), Pattern::matches_path matches a compiled
pattern against a whole path string with the default MatchOptions
(case sensitive, separators and leading dots not required to be literal, so
the star wildcards also match the path separator).  The compiler is written
with explicit fuel so that it stays structurally recursive and evaluates
inside the kernel; the fuel is always sufficient by construction. -/

/-- One compiled glob pattern token. -/
inductive GlobToken where
  | lit (c : Char)
  | anyChar
  | anySeq
  | anyRecursive
  | charClass (neg : Bool) (items : List (Char × Char))
deriving DecidableEq, Repr

/-- A compiled glob pattern. -/
abbrev GlobPattern := List GlobToken

/-- Count the leading occurrences of a character. -/
def countLeading (c : Char) : List Char → Nat
  | [] => 0
  | d :: rest => if d = c then countLeading c rest + 1 else 0

/-- Parse the items of a character class, after the opening bracket and the
optional negation mark, up to the closing bracket.  A range a-b becomes the
pair (a, b); a single character c becomes (c, c).  Returns the items and the
remaining characters, or none when the class is never closed. -/
def parseClassAux : List Char → Option (List (Char × Char) × List Char)
  | [] => none
  | c :: d :: e :: rest2 =>
    if c = ']' then some ([], d :: e :: rest2)
    else if d = '-' ∧ e ≠ ']' then
      (parseClassAux rest2).map (fun p => ((c, e) :: p.1, p.2))
    else
      (parseClassAux (d :: e :: rest2)).map (fun p => ((c, c) :: p.1, p.2))
  | c :: rest =>
    if c = ']' then some ([], rest)
    else (parseClassAux rest).map (fun p => ((c, c) :: p.1, p.2))

/-- Parse a character class; an empty class is a pattern error, like in the
glob crate. -/
def parseClass (cs : List Char) : Option (List (Char × Char) × List Char) :=
  match parseClassAux cs with
  | some ([], _) => none
  | r => r

/-- Parse a glob pattern into tokens.  The Bool argument records whether the
previous character was a path separator (or the start of the pattern), which
the glob crate uses to validate that a recursive double star wildcard forms
an entire path component; three or more stars in a row, a misplaced double
star and a broken character class are pattern errors. -/
def parseGlob : Nat → Bool → List Char → Option (List GlobToken)
  | 0, _, _ => none
  | _ + 1, _, [] => some []
  | f + 1, prevSep, c :: rest =>
    if c = '*' then
      let n := 1 + countLeading '*' rest
      let rest2 := rest.drop (n - 1)
      if n = 1 then (parseGlob f false rest2).map (GlobToken.anySeq :: ·)
      else if n = 2 then
        if prevSep then
          match rest2 with
          | [] => some [GlobToken.anyRecursive]
          | d :: rest3 =>
            if d = '/' then (parseGlob f true rest3).map (GlobToken.anyRecursive :: ·)
            else none
        else none
      else none
    else if c = '?' then (parseGlob f false rest).map (GlobToken.anyChar :: ·)
    else if c = '[' then
      match rest with
      | b :: rest1 =>
        if b = '!' then
          (parseClass rest1).bind (fun p => (parseGlob f false p.2).map (GlobToken.charClass true p.1 :: ·))
        else
          (parseClass rest).bind (fun p => (parseGlob f false p.2).map (GlobToken.charClass false p.1 :: ·))
      | [] => none
    else (parseGlob f (c = '/') rest).map (GlobToken.lit c :: ·)

/-- Pattern::new: compile a pattern string, none on a pattern error. -/
def compilePattern (s : String) : Option GlobPattern :=
  parseGlob (s.data.length + 1) true s.data

/-- Membership test of a character in a character class. -/
def classMatches (neg : Bool) (items : List (Char × Char)) (c : Char) : Bool :=
  let inCls := items.any (fun p => decide (p.1 ≤ c) && decide (c ≤ p.2))
  if neg then !inCls else inCls

/-- Token matcher with fuel, mirroring Pattern::matches with the default
MatchOptions: with require_literal_separator off, both star wildcards match
any characters, including path separators. -/
def globMatchAux : Nat → List GlobToken → List Char → Bool
  | 0, _, _ => false
  | _ + 1, [], [] => true
  | _ + 1, [], _ :: _ => false
  | f + 1, t :: ts, cs =>
    match t with
    | .anySeq =>
      globMatchAux f ts cs ||
        (match cs with
         | [] => false
         | _ :: cs2 => globMatchAux f (GlobToken.anySeq :: ts) cs2)
    | .anyRecursive =>
      globMatchAux f ts cs ||
        (match cs with
         | [] => false
         | _ :: cs2 => globMatchAux f (GlobToken.anyRecursive :: ts) cs2)
    | .anyChar =>
      match cs with
      | _ :: cs2 => globMatchAux f ts cs2
      | [] => false
    | .lit d =>
      match cs with
      | c :: cs2 => d = c && globMatchAux f ts cs2
      | [] => false
    | .charClass neg items =>
      match cs with
      | c :: cs2 => classMatches neg items c && globMatchAux f ts cs2
      | [] => false

/-- Pattern::matches_path on the string form of a path, with the default
match options.  The fuel bounds the total size consumed, which shrinks at
every step of globMatchAux. -/
def globMatch (p : GlobPattern) (s : String) : Bool :=
  globMatchAux (p.length + s.data.length + 1) p s.data

/-! ## UTF-8

str::from_utf8 of the Rust standard library: a validator and a decoder on
byte lists.  The validator follows the UTF-8 table exactly (continuation
ranges, the tight second-byte ranges of E0, ED, F0 and F4 excluding
overlong forms, surrogates and code points above 10FFFF).  The decoder is
only ever used on validated input. -/

/-- A UTF-8 continuation byte. -/
def isCont (b : Nat) : Bool := 0x80 ≤ b && b ≤ 0xBF

/-- Validity of a byte list as UTF-8, as str::from_utf8 checks it. -/
def utf8Valid : List Nat → Bool
  | [] => true
  | b :: rest =>
    if b ≤ 0x7F then utf8Valid rest
    else if 0xC2 ≤ b ∧ b ≤ 0xDF then
      match rest with
      | c1 :: r => isCont c1 && utf8Valid r
      | [] => false
    else if 0xE0 ≤ b ∧ b ≤ 0xEF then
      match rest with
      | c1 :: c2 :: r =>
        (if b = 0xE0 then decide (0xA0 ≤ c1) && decide (c1 ≤ 0xBF)
         else if b = 0xED then decide (0x80 ≤ c1) && decide (c1 ≤ 0x9F)
         else isCont c1) && isCont c2 && utf8Valid r
      | _ => false
    else if 0xF0 ≤ b ∧ b ≤ 0xF4 then
      match rest with
      | c1 :: c2 :: c3 :: r =>
        (if b = 0xF0 then decide (0x90 ≤ c1) && decide (c1 ≤ 0xBF)
         else if b = 0xF4 then decide (0x80 ≤ c1) && decide (c1 ≤ 0x8F)
         else isCont c1) && isCont c2 && isCont c3 && utf8Valid r
      | _ => false
    else false

/-- Decode a UTF-8 byte list into characters; meaningful only on input that
utf8Valid accepts, which is the only way the engine uses it. -/
def utf8DecodeAux : List Nat → List Char
  | [] => []
  | b :: rest =>
    if b ≤ 0x7F then Char.ofNat b :: utf8DecodeAux rest
    else if b ≤ 0xDF then
      match rest with
      | c1 :: r => Char.ofNat ((b - 0xC0) * 0x40 + (c1 - 0x80)) :: utf8DecodeAux r
      | [] => []
    else if b ≤ 0xEF then
      match rest with
      | c1 :: c2 :: r =>
        Char.ofNat ((b - 0xE0) * 0x1000 + (c1 - 0x80) * 0x40 + (c2 - 0x80)) :: utf8DecodeAux r
      | _ => []
    else
      match rest with
      | c1 :: c2 :: c3 :: r =>
        Char.ofNat ((b - 0xF0) * 0x40000 + (c1 - 0x80) * 0x1000 + (c2 - 0x80) * 0x40 + (c3 - 0x80)) :: utf8DecodeAux r
      | _ => []

/-- The text of a UTF-8 byte list. -/
def utf8Decode (bs : List Nat) : String := String.mk (utf8DecodeAux bs)

/-! ## Template rendering

Tera is an external collaborator of the engine (spec section 6): the code
only hands it a template string and the answer context and trusts the
returned string.  All embedded engine functions therefore take the renderer
as a parameter of type Renderer.  For concrete instances a small stand-in
renderer miniRender is provided, modelled from the collaborator description
in the spec: it substitutes double-brace variable references from the
context and fails on an unclosed reference or an unknown name. -/

/-- The render collaborator: Tera::one_off with a context, returning either
the rendered string or an error message. -/
abbrev Renderer := String → Ctx → Except String String

/-- The opening brace character. -/
def lb : Char := Char.ofNat 123

/-- The closing brace character. -/
def rb : Char := Char.ofNat 125

/-- Strip spaces from both ends of a character list. -/
def trimChars (cs : List Char) : List Char :=
  ((cs.dropWhile (fun c => c = ' ')).reverse.dropWhile (fun c => c = ' ')).reverse

/-- Text rendering of a value, for substitution into a template. -/
def tvalChars : TVal → List Char
  | .boolean true => ['t', 'r', 'u', 'e']
  | .boolean false => ['f', 'a', 'l', 's', 'e']
  | .string s => s.data
  | .integer i => (toString i).data
  | .datetime s => s.data

/-- Scan for the closing double brace of a variable reference; returns the
reference body and the characters after the closing braces, or none when
the reference is never closed. -/
def takeVar : List Char → Option (List Char × List Char)
  | [] => none
  | [_] => none
  | c1 :: c2 :: rest =>
    if c1 = rb ∧ c2 = rb then some ([], rest)
    else
      match takeVar (c2 :: rest) with
      | some (nm, r) => some (c1 :: nm, r)
      | none => none

/-- Fueled renderer core: copies characters, substituting each double-brace
reference by the context value of the trimmed name inside; none on an
unclosed reference or an unknown name.  The fuel only needs to exceed the
input length. -/
def renderCharsF (ctx : Ctx) : Nat → List Char → Option (List Char)
  | 0, _ => none
  | _ + 1, [] => some []
  | f + 1, c :: rest =>
    if c = lb then
      match rest with
      | c2 :: rest2 =>
        if c2 = lb then
          match takeVar rest2 with
          | none => none
          | some (nm, r) =>
            match Ctx.get ctx (String.mk (trimChars nm)) with
            | none => none
            | some v =>
              match renderCharsF ctx f r with
              | none => none
              | some out => some (tvalChars v ++ out)
        else
          match renderCharsF ctx f rest with
          | none => none
          | some out => some (c :: out)
      | [] => some [c]
    else
      match renderCharsF ctx f rest with
      | none => none
      | some out => some (c :: out)

/-- Modelled from the spec: the Tera render collaborator (one_off on a
template string and a context), whose own code is outside this repository.
It substitutes variable references written between double braces by the
referenced context values and errors on an unclosed reference or an unknown
name. -/
def miniRender : Renderer := fun s ctx =>
  match renderCharsF ctx (s.data.length + 1) s.data with
  | some cs => Except.ok (String.mk cs)
  | none => Except.error "template error"

/-- Absence of an adjacent pair of opening braces in a character list. -/
def noDoubleBrace : List Char → Bool
  | [] => true
  | [_] => true
  | c1 :: c2 :: rest => !(c1 = lb ∧ c2 = lb) && noDoubleBrace (c2 :: rest)

/-- A string with a variable reference, detected as an adjacent pair of
opening braces, the only syntax through which a rendered string can differ
from its template in the collaborator contract. -/
def hasVarRef (s : String) : Bool := !(noDoubleBrace s.data)

/-! ## The render walker and the cleanup executor

Template::generate walks the template tree and then runs the cleanup rules.
The walkdir enumeration (already filtered of version-control metadata by
the is_vcs filter and of unreadable entries by the ok filter, both outside
the decision logic under test) is a parameter: a list of entries, each with
its path relative to the template root, its directory flag and, for files,
its bytes.  Filesystem writes are materialized as Action values in the
order the code performs them; an error or a panic aborts the remaining walk
exactly as the Rust control flow does. -/

/-- A walked entry: the path relative to the template root (the empty
string for the root itself), whether it is a directory, and the bytes of
its content when it is a file. -/
structure Entry where
  relPath : String
  isDir : Bool
  content : List Nat := []
deriving DecidableEq, Repr

/-- A filesystem effect of the engine, in execution order. -/
inductive Action where
  | createDir (path : String)
  | copyFile (dest : String) (bytes : List Nat)
  | writeFile (dest : String) (text : String)
  | deleteFile (path : String)
  | deleteDirAll (path : String)
deriving DecidableEq, Repr

/-- The path an action touches. -/
def Action.dest : Action → String
  | .createDir p => p
  | .copyFile p _ => p
  | .writeFile p _ => p
  | .deleteFile p => p
  | .deleteDirAll p => p

/-- What one walked entry contributes: nothing, or one filesystem action. -/
inductive StepRes where
  | skip
  | act (a : Action)
deriving DecidableEq, Repr

/-- What the filesystem reports about a path when the cleanup executor
probes it: Path::exists and Path::is_dir. -/
inductive PathKind where
  | absent
  | file
  | dir
deriving DecidableEq, Repr

/-- First list is a character-for-character leading run of the second
(str::starts_with on the underlying characters). -/
def listLeads : List Char → List Char → Bool
  | [], _ => true
  | _ :: _, [] => false
  | a :: as, b :: bs => a = b && listLeads as bs

/-- str::starts_with: the first string is a leading run of the second. -/
def strLeads (pre s : String) : Bool := listLeads pre.data s.data

/-- The ignore test of the walk loop: some ignore entry equals the relative
path string or is a leading run of it. -/
def isIgnored (ignore : List String) (pathStr : String) : Bool :=
  ignore.any (fun ig => ig = pathStr || strLeads ig pathStr)

/-- Path::join of an output root and a joined path, on strings: an absolute
right side replaces the root, otherwise the two are joined with a single
separator. -/
def pathJoin (a b : String) : String :=
  if listLeads ['/'] b.data then b
  else if a = "" then b
  else if a.data.getLast? = some '/' then a ++ b
  else a ++ "/" ++ b

/-- Loop body of the walk in Template::generate, for one entry: skip the
root and the definition file, skip ignored relative paths, render the
relative path into the destination (joined under the output root), then
create the directory, copy the file verbatim when a compiled pattern
matches the destination or the content looks binary, and otherwise decode
the bytes (a panic when they are not UTF-8, from the unwrap in the source)
and render them into the destination file. -/
def walkStep (render : Renderer) (isBin : List Nat → Bool)
    (patterns : List GlobPattern) (ignore : List String) (ctx : Ctx)
    (outputDir : String) (e : Entry) : Outcome StepRes :=
  if e.relPath = "" ∨ e.relPath = "template.toml" then .ok .skip
  else if isIgnored ignore e.relPath then .ok .skip
  else
    match render e.relPath ctx with
    | .error m => .err (.tera m none)
    | .ok tpl =>
      if e.isDir then .ok (.act (.createDir (pathJoin outputDir tpl)))
      else if patterns.any (fun p => globMatch p (pathJoin outputDir tpl)) || isBin e.content then
        .ok (.act (.copyFile (pathJoin outputDir tpl) e.content))
      else if utf8Valid e.content then
        match render (utf8Decode e.content) ctx with
        | .error m => .err (.tera m (some e.relPath))
        | .ok contents => .ok (.act (.writeFile (pathJoin outputDir tpl) contents))
      else .crash "called Result::unwrap() on an Err value: Utf8Error"

/-- The walk of Template::generate over the entry list, collecting actions
and aborting on the first error or panic. -/
def walkLoop (render : Renderer) (isBin : List Nat → Bool)
    (patterns : List GlobPattern) (ignore : List String) (ctx : Ctx)
    (outputDir : String) : List Entry → Outcome (List Action)
  | [] => .ok []
  | e :: rest =>
    match walkStep render isBin patterns ignore ctx outputDir e with
    | .err k => .err k
    | .crash m => .crash m
    | .ok .skip => walkLoop render isBin patterns ignore ctx outputDir rest
    | .ok (.act a) =>
      Outcome.map (fun as => a :: as) (walkLoop render isBin patterns ignore ctx outputDir rest)

/-- Inner loop of the cleanup pass for one matched rule: render each path
template, join it under the output root, and delete what exists there,
recursively for a directory and as a single file otherwise; an absent
target contributes nothing. -/
def cleanupPaths (render : Renderer) (vals : Ctx) (fs : String → PathKind)
    (outputDir : String) : List String → Outcome (List Action)
  | [] => .ok []
  | p :: ps =>
    match render p vals with
    | .error m => .err (.tera m none)
    | .ok actual =>
      match fs (pathJoin outputDir actual) with
      | .absent => cleanupPaths render vals fs outputDir ps
      | .dir =>
        Outcome.map (fun as => Action.deleteDirAll (pathJoin outputDir actual) :: as)
          (cleanupPaths render vals fs outputDir ps)
      | .file =>
        Outcome.map (fun as => Action.deleteFile (pathJoin outputDir actual) :: as)
          (cleanupPaths render vals fs outputDir ps)

/-- The cleanup pass of Template::generate: a rule acts only when its
trigger name is present in the answer map with exactly the trigger value;
otherwise the rule is skipped whole. -/
def cleanupLoop (render : Renderer) (vals : Ctx) (fs : String → PathKind)
    (outputDir : String) : List CleanupRule → Outcome (List Action)
  | [] => .ok []
  | rule :: rest =>
    match Ctx.get vals rule.name with
    | none => cleanupLoop render vals fs outputDir rest
    | some v =>
      if v = rule.value then
        match cleanupPaths render vals fs outputDir rule.paths with
        | .err e => .err e
        | .crash m => .crash m
        | .ok as =>
          Outcome.map (fun bs => as ++ bs) (cleanupLoop render vals fs outputDir rest)
      else cleanupLoop render vals fs outputDir rest

/-- The eager pattern compilation before the walk: Pattern::new on every
copy_without_render entry, with the unwrap of the source turning the first
pattern error into a panic.  none therefore means the Rust code panics. -/
def compilePatterns : List String → Option (List GlobPattern)
  | [] => some []
  | s :: rest =>
    match compilePattern s with
    | none => none
    | some p => (compilePatterns rest).map (fun ps => p :: ps)

/-- Template::generate: check the definition file exists, parse it (both
modelled by the confExists flag and the defOpt option, since parsing itself
is an external concern), ask the questions, create the output root when it
is missing, compile the glob patterns once, walk the entries, then run the
cleanup rules over the materialized output with the same answers. -/
def generate (pr : Prompter) (render : Renderer) (isBin : List Nat → Bool)
    (fs : String → PathKind) (confExists : Bool)
    (defOpt : Option TemplateDefinition) (outputDirExists : Bool)
    (outputDir : String) (entries : List Entry) : Outcome (List Action) :=
  if confExists = false then .err .missingTemplateDefinition
  else
    match defOpt with
    | none => .err .invalidTemplate
    | some d =>
      match askQuestions pr d.vars [] with
      | .err e => .err e
      | .crash m => .crash m
      | .ok vals =>
        match compilePatterns d.copy_without_render with
        | none => .crash "called Result::unwrap() on an Err value: PatternError"
        | some patterns =>
          match walkLoop render isBin patterns d.ignore vals outputDir entries with
          | .err e => .err e
          | .crash m => .crash m
          | .ok ws =>
            match cleanupLoop render vals fs outputDir d.cleanup with
            | .err e => .err e
            | .crash m => .crash m
            | .ok cs =>
              .ok ((if outputDirExists then [] else [Action.createDir outputDir]) ++ ws ++ cs)

/-! ## Concrete instances used by witnesses and counterexamples -/

/-- A binary-detection collaborator classifying nothing as binary. -/
def neverBin : List Nat → Bool := fun _ => false

/-- A binary-detection collaborator classifying everything as binary. -/
def alwaysBin : List Nat → Bool := fun _ => true

/-- A context with one string answer, name bound to demo. -/
def demoCtx : Ctx := [("name", TVal.string "demo")]

/-- A variable conditioned on a name that is never collected. -/
def vCondAbsent : Variable :=
  { name := "feature", prompt := "p", default := TVal.boolean false,
    only_if := some { name := "x", value := TVal.boolean true } }

/-- A variable whose default value has a tag outside the supported set. -/
def vDatetime : Variable :=
  { name := "when", prompt := "p", default := TVal.datetime "2020-01-01" }

/-- The compiled form of the literal pattern secret.txt. -/
def secretPat : GlobPattern := (compilePattern "secret.txt").getD []

/-- The bytes of a small template file whose content is one variable
reference between double braces with spaces inside. -/
def refBytes : List Nat := [123, 123, 32, 110, 97, 109, 101, 32, 125, 125]

/-- A walked file named secret.txt containing one variable reference. -/
def secretEntry : Entry := { relPath := "secret.txt", isDir := false, content := refBytes }

/-- A walked file whose single byte is not valid UTF-8. -/
def binEntry : Entry := { relPath := "data.bin", isDir := false, content := [255] }

/-- Another walked file with invalid UTF-8 content (a lone continuation
lead byte). -/
def binEntry2 : Entry := { relPath := "weird.dat", isDir := false, content := [200] }

/-- A walked file matched as binary in the copy witness. -/
def pngEntry : Entry := { relPath := "logo.png", isDir := false, content := [137, 80] }

/-- A walked directory with a plain name. -/
def docsEntry : Entry := { relPath := "docs", isDir := true }

/-- The cleanup rule of the spec scenario C, triggering on use_docker being
false. -/
def dockerRule : CleanupRule :=
  { name := "use_docker", value := TVal.boolean false, paths := ["Dockerfile"] }

/-- The template definition of the spec scenario C. -/
def dockerDef : TemplateDefinition :=
  { vars := [{ name := "use_docker", prompt := "docker?", default := TVal.boolean false }],
    cleanup := [dockerRule] }

/-- The walked Dockerfile of the spec scenario C (ASCII bytes of FROM). -/
def dockerEntry : Entry := { relPath := "Dockerfile", isDir := false, content := [70, 82, 79, 77] }

/-- A filesystem on which only out/Dockerfile exists, as a file. -/
def dockerFs : String → PathKind := fun p => if p = "out/Dockerfile" then .file else .absent

/-- A filesystem on which nothing exists. -/
def emptyFs : String → PathKind := fun _ => .absent

/-- A template definition whose copy_without_render holds one pattern with
an unclosed character class, which Pattern::new rejects. -/
def badPatDef : TemplateDefinition := { copy_without_render := ["abc["] }

/-! ## Helper lemmas -/

/-- The remainder returned by takeVar is strictly shorter than its input. -/
theorem takeVar_length :
    ∀ (cs nm r : List Char), takeVar cs = some (nm, r) → r.length < cs.length
  | [], _, _, h => by simp [takeVar] at h
  | [_], _, _, h => by simp [takeVar] at h
  | c1 :: c2 :: rest, nm, r, h => by
    unfold takeVar at h
    by_cases hc : c1 = rb ∧ c2 = rb
    · simp [hc] at h
      simp [← h.2]
      omega
    · simp [hc] at h
      match h2 : takeVar (c2 :: rest) with
      | none => rw [h2] at h; simp at h
      | some (nm2, r2) =>
        rw [h2] at h
        simp at h
        have := takeVar_length (c2 :: rest) nm2 r2 h2
        simp at this
        simp [← h.2]
        omega

/-- The tail of a list without a double brace has none either. -/
theorem noDoubleBrace_tail {c : Char} {rest : List Char}
    (h : noDoubleBrace (c :: rest) = true) : noDoubleBrace rest = true := by
  match rest with
  | [] => rfl
  | d :: rest2 =>
    unfold noDoubleBrace at h
    exact (Bool.and_eq_true_iff.mp h).2

/-- On input without a double brace and with enough fuel, the renderer core
is the identity. -/
theorem renderCharsF_id (ctx : Ctx) :
    ∀ (f : Nat) (cs : List Char), cs.length < f → noDoubleBrace cs = true →
      renderCharsF ctx f cs = some cs := by
  intro f
  induction f with
  | zero => intro cs h _; omega
  | succ f ih =>
    intro cs hlen hnb
    match cs with
    | [] => rfl
    | c :: rest =>
      have hrest : noDoubleBrace rest = true := noDoubleBrace_tail hnb
      have hlen2 : rest.length < f := by simp at hlen; omega
      unfold renderCharsF
      by_cases hc : c = lb
      · match rest with
        | [] => simp [hc]
        | c2 :: rest2 =>
          have hc2 : ¬(c2 = lb) := by
            unfold noDoubleBrace at hnb
            have := (Bool.and_eq_true_iff.mp hnb).1
            simp [hc] at this
            exact this
          simp [hc, hc2]
          rw [ih (c2 :: rest2) hlen2 hrest]
      · simp [hc]
        rw [ih rest hlen2 hrest]

/-- miniRender satisfies the collaborator identity contract: a template
without a variable reference renders to itself. -/
theorem miniRender_plain_id (s : String) (ctx : Ctx) (h : hasVarRef s = false) :
    miniRender s ctx = Except.ok s := by
  unfold miniRender
  have hnb : noDoubleBrace s.data = true := by
    unfold hasVarRef at h
    simp at h
    exact h
  rw [renderCharsF_id ctx (s.data.length + 1) s.data (by omega) hnb]

/-- Every list is a leading run of itself. -/
theorem listLeads_self : ∀ (a : List Char), listLeads a a = true
  | [] => rfl
  | c :: rest => by
    unfold listLeads
    simp [listLeads_self rest]

/-- A leading run of a list is a leading run of any extension of it. -/
theorem listLeads_append :
    ∀ (a b c : List Char), listLeads a b = true → listLeads a (b ++ c) = true
  | [], _, _, _ => rfl
  | _ :: _, [], _, h => by simp [listLeads] at h
  | x :: xs, y :: ys, c, h => by
    unfold listLeads at h ⊢
    have h2 := Bool.and_eq_true_iff.mp h
    simp [h2.1, listLeads_append xs ys c h2.2]

/-- Ignoredness is preserved by extending the relative path, which is how
everything beneath an ignored directory stays ignored. -/
theorem isIgnored_append (ignore : List String) (p sub : String)
    (h : isIgnored ignore p = true) : isIgnored ignore (p ++ sub) = true := by
  unfold isIgnored at h ⊢
  rw [List.any_eq_true] at h ⊢
  obtain ⟨ig, hig, hcase⟩ := h
  refine ⟨ig, hig, ?_⟩
  rw [Bool.or_eq_true] at hcase ⊢
  right
  unfold strLeads
  rw [String.data_append]
  rcases hcase with heq | hlead
  · rw [decide_eq_true_iff] at heq
    subst heq
    exact listLeads_append ig.data ig.data sub.data (listLeads_self ig.data)
  · exact listLeads_append ig.data p.data sub.data hlead

/-! ## Claim theorems -/

/-- C1 counterexample: a variable whose only_if condition references the
name x, with x absent from the context built so far.  The claim says the
variable is skipped entirely with no entry added; the code asks the
question and adds the entry feature to the context. -/
theorem c1_counterexample :
    askQuestions defPrompter [vCondAbsent] [] = Outcome.ok [("feature", TVal.boolean false)]
    ∧ askQuestions defPrompter [vCondAbsent] [] ≠ Outcome.ok [] := by
  constructor
  · decide
  · decide

/-- C1 (amended): a variable with an only_if condition is skipped, with no
question asked and no entry added, exactly when the referenced name is
present in the context built so far with a value different from the
expected one; in both remaining cases, the referenced name absent from the
context and the referenced name present with exactly the expected value,
the variable is not skipped and is asked normally. -/
theorem c1_theorem (pr : Prompter) (var : Variable) (rest : List Variable) (vals : Ctx)
    (cond : Condition) (hc : var.only_if = some cond) :
    (∀ v, Ctx.get vals cond.name = some v → v ≠ cond.value →
      askQuestions pr (var :: rest) vals = askQuestions pr rest vals)
    ∧ (Ctx.get vals cond.name = none →
        skipVar vals var = false ∧
        askQuestions pr (var :: rest) vals =
          match askVar pr var vals with
          | .ok vals2 => askQuestions pr rest vals2
          | .err e => .err e
          | .crash m => .crash m)
    ∧ (Ctx.get vals cond.name = some cond.value →
        skipVar vals var = false ∧
        askQuestions pr (var :: rest) vals =
          match askVar pr var vals with
          | .ok vals2 => askQuestions pr rest vals2
          | .err e => .err e
          | .crash m => .crash m) := by
  refine ⟨?_, ?_, ?_⟩
  · intro v hv hne
    have hs : skipVar vals var = true := by
      simp [skipVar, hc, hv, hne]
    conv_lhs => rw [askQuestions]
    simp [hs]
  · intro hnone
    have hs : skipVar vals var = false := by
      simp [skipVar, hc, hnone]
    refine ⟨hs, ?_⟩
    conv_lhs => rw [askQuestions]
    simp [hs]
  · intro heq
    have hs : skipVar vals var = false := by
      simp [skipVar, hc, heq]
    refine ⟨hs, ?_⟩
    conv_lhs => rw [askQuestions]
    simp [hs]

/-- C1 witness: with x collected as false and expected true, the
conditioned variable contributes nothing; with x collected as the expected
true, it is not skipped. -/
theorem c1_witness :
    (askQuestions defPrompter [vCondAbsent] [("x", TVal.boolean false)] =
      askQuestions defPrompter [] [("x", TVal.boolean false)])
    ∧ skipVar [("x", TVal.boolean true)] vCondAbsent = false :=
  ⟨(c1_theorem defPrompter vCondAbsent [] [("x", TVal.boolean false)]
      { name := "x", value := TVal.boolean true } rfl).1
    (TVal.boolean false) rfl (by decide),
   ((c1_theorem defPrompter vCondAbsent [] [("x", TVal.boolean true)]
      { name := "x", value := TVal.boolean true } rfl).2.2 rfl).1⟩

/-- C2 counterexample: a variable whose default value has the Datetime tag
and no choices list.  The claim says resolving returns an
UnsupportedVariableType error to the caller; the code panics (a process
abort), and no error value is returned. -/
theorem c2_counterexample :
    askQuestions defPrompter [vDatetime] [] = Outcome.crash "Unsupported TOML type in a question"
    ∧ (askQuestions defPrompter [vDatetime] []).isErr = false := by
  constructor
  · decide
  · decide

/-- C2 (amended): for a variable whose default value has a tag outside
Boolean, String and Integer and that declares no choices list, resolving
the questions aborts the process with the panic message of the source
instead of returning an error value to the caller. -/
theorem c2_theorem (pr : Prompter) (var : Variable) (rest : List Variable) (vals : Ctx)
    (hch : var.choices = none) (hs : skipVar vals var = false)
    (hd : var.default.tagSupported = false) :
    askQuestions pr (var :: rest) vals = Outcome.crash "Unsupported TOML type in a question"
    ∧ (askQuestions pr (var :: rest) vals).isErr = false := by
  have hv : askVar pr var vals = Outcome.crash "Unsupported TOML type in a question" := by
    unfold askVar
    rw [hch]
    cases hdv : var.default with
    | boolean b => rw [hdv] at hd; simp [TVal.tagSupported] at hd
    | string s => rw [hdv] at hd; simp [TVal.tagSupported] at hd
    | integer i => rw [hdv] at hd; simp [TVal.tagSupported] at hd
    | datetime s => rfl
  have hq : askQuestions pr (var :: rest) vals =
      Outcome.crash "Unsupported TOML type in a question" := by
    unfold askQuestions
    simp [hs, hv]
  exact ⟨hq, by rw [hq]; rfl⟩

/-- C2 witness: the datetime-defaulted variable crashes resolving also from
a nonempty context. -/
theorem c2_witness :
    askQuestions defPrompter [vDatetime] [("x", TVal.boolean true)] =
      Outcome.crash "Unsupported TOML type in a question"
    ∧ (askQuestions defPrompter [vDatetime] [("x", TVal.boolean true)]).isErr = false :=
  c2_theorem defPrompter vDatetime [] [("x", TVal.boolean true)] rfl rfl rfl

/-- Unfolding of walkStep on a non-skipped file entry whose relative path
renders successfully: the copy-or-render decision remains. -/
theorem walkStep_file (render : Renderer) (isBin : List Nat → Bool)
    (patterns : List GlobPattern) (ignore : List String) (ctx : Ctx) (od : String)
    (e : Entry) (tpl : String)
    (hf : e.isDir = false)
    (hroot : ¬(e.relPath = "" ∨ e.relPath = "template.toml"))
    (hig : isIgnored ignore e.relPath = false)
    (hr : render e.relPath ctx = Except.ok tpl) :
    walkStep render isBin patterns ignore ctx od e =
      if patterns.any (fun p => globMatch p (pathJoin od tpl)) || isBin e.content then
        Outcome.ok (StepRes.act (Action.copyFile (pathJoin od tpl) e.content))
      else if utf8Valid e.content then
        match render (utf8Decode e.content) ctx with
        | Except.error m => Outcome.err (ErrKind.tera m (some e.relPath))
        | Except.ok contents => Outcome.ok (StepRes.act (Action.writeFile (pathJoin od tpl) contents))
      else Outcome.crash "called Result::unwrap() on an Err value: Utf8Error" := by
  unfold walkStep
  rw [if_neg hroot, if_neg (by simp [hig]), hr]
  simp [hf]

/-- C3 counterexample: the pattern secret.txt, the file secret.txt whose
content is one variable reference, the output root out, a binary detector
answering false and the context binding name to demo.  The pattern does
match the output-relative destination path, so the claim requires a
verbatim copy; the code matches patterns against the full joined output
path instead, finds no match, and renders the file, writing demo. -/
theorem c3_counterexample :
    compilePattern "secret.txt" = some secretPat
    ∧ globMatch secretPat "secret.txt" = true
    ∧ walkStep miniRender neverBin [secretPat] [] demoCtx "out" secretEntry =
        Outcome.ok (StepRes.act (Action.writeFile "out/secret.txt" "demo")) := by
  refine ⟨by decide, by decide, by decide⟩

/-- C3 (amended): a walked file is copied verbatim, the copy carrying
exactly the input bytes, precisely when some copy_without_render pattern
matches the full destination path, that is the output root joined with the
rendered relative path, or the content is classified as binary; otherwise
its decoded text is rendered against the context and the rendered text is
written to the destination. -/
theorem c3_theorem (render : Renderer) (isBin : List Nat → Bool)
    (patterns : List GlobPattern) (ignore : List String) (ctx : Ctx) (od : String)
    (e : Entry) (tpl : String)
    (hf : e.isDir = false)
    (hroot : ¬(e.relPath = "" ∨ e.relPath = "template.toml"))
    (hig : isIgnored ignore e.relPath = false)
    (hr : render e.relPath ctx = Except.ok tpl) :
    (walkStep render isBin patterns ignore ctx od e =
        Outcome.ok (StepRes.act (Action.copyFile (pathJoin od tpl) e.content))
      ↔ (patterns.any (fun p => globMatch p (pathJoin od tpl)) || isBin e.content) = true)
    ∧ ((patterns.any (fun p => globMatch p (pathJoin od tpl)) || isBin e.content) = false →
        utf8Valid e.content = true →
        walkStep render isBin patterns ignore ctx od e =
          match render (utf8Decode e.content) ctx with
          | Except.error m => Outcome.err (ErrKind.tera m (some e.relPath))
          | Except.ok contents =>
            Outcome.ok (StepRes.act (Action.writeFile (pathJoin od tpl) contents))) := by
  have hw := walkStep_file render isBin patterns ignore ctx od e tpl hf hroot hig hr
  constructor
  · rw [hw]
    constructor
    · intro hcopy
      by_contra hb
      rw [Bool.not_eq_true] at hb
      rw [if_neg (by simp [hb])] at hcopy
      by_cases hv : utf8Valid e.content = true
      · rw [if_pos hv] at hcopy
        cases hrc : render (utf8Decode e.content) ctx with
        | ok c => rw [hrc] at hcopy; simp at hcopy
        | error m => rw [hrc] at hcopy; simp at hcopy
      · rw [if_neg hv] at hcopy
        simp at hcopy
    · intro hb
      rw [if_pos (by simp [hb])]
  · intro hb hv
    rw [hw, if_neg (by simp [hb]), if_pos (by simp [hv])]

/-- C3 witness: a file classified as binary is copied verbatim to its
joined destination. -/
theorem c3_witness :
    walkStep miniRender alwaysBin [] [] demoCtx "out" pngEntry =
      Outcome.ok (StepRes.act (Action.copyFile (pathJoin "out" "logo.png") [137, 80])) :=
  (c3_theorem miniRender alwaysBin [] [] demoCtx "out" pngEntry "logo.png"
      rfl (by decide) rfl (by decide)).1.mpr (by decide)

/-- C4 counterexample: a file whose single byte 255 is not valid UTF-8,
with nothing classifying it as binary.  The claim says the render step
surfaces an explicit error and the program never crashes on such content;
the code panics on the unwrap of the UTF-8 decode, and no error value is
produced. -/
theorem c4_counterexample :
    walkStep miniRender neverBin [] [] demoCtx "out" binEntry =
      Outcome.crash "called Result::unwrap() on an Err value: Utf8Error"
    ∧ (walkStep miniRender neverBin [] [] demoCtx "out" binEntry).isErr = false := by
  refine ⟨by decide, by decide⟩

/-- C4 (amended): a walked file that is neither pattern-matched nor
classified as binary but whose bytes are not valid UTF-8 makes the program
panic with the unwrap message of the source; no error value of any kind is
returned to the caller. -/
theorem c4_theorem (render : Renderer) (isBin : List Nat → Bool)
    (patterns : List GlobPattern) (ignore : List String) (ctx : Ctx) (od : String)
    (e : Entry) (tpl : String)
    (hf : e.isDir = false)
    (hroot : ¬(e.relPath = "" ∨ e.relPath = "template.toml"))
    (hig : isIgnored ignore e.relPath = false)
    (hr : render e.relPath ctx = Except.ok tpl)
    (hnr : (patterns.any (fun p => globMatch p (pathJoin od tpl)) || isBin e.content) = false)
    (hv : utf8Valid e.content = false) :
    walkStep render isBin patterns ignore ctx od e =
      Outcome.crash "called Result::unwrap() on an Err value: Utf8Error"
    ∧ (walkStep render isBin patterns ignore ctx od e).isErr = false := by
  have hw := walkStep_file render isBin patterns ignore ctx od e tpl hf hroot hig hr
  rw [hw, if_neg (by simp [hnr]), if_neg (by simp [hv])]
  exact ⟨rfl, rfl⟩

/-- C4 witness: a lone multi-byte lead byte crashes the render step of the
walk. -/
theorem c4_witness :
    walkStep miniRender neverBin [] [] demoCtx "out" binEntry2 =
      Outcome.crash "called Result::unwrap() on an Err value: Utf8Error"
    ∧ (walkStep miniRender neverBin [] [] demoCtx "out" binEntry2).isErr = false :=
  c4_theorem miniRender neverBin [] [] demoCtx "out" binEntry2 "weird.dat"
    rfl (by decide) rfl (by decide) (by decide) (by decide)

/-- C5: a walked entry whose relative path equals or has as a leading run
some ignore entry contributes no action at all (no output path is created),
and every path beneath it, which extends its relative path, is ignored in
turn, so nothing beneath an ignored directory produces output either. -/
theorem c5_theorem (render : Renderer) (isBin : List Nat → Bool)
    (patterns : List GlobPattern) (ignore : List String) (ctx : Ctx) (od : String)
    (e : Entry) (rest : List Entry)
    (h : isIgnored ignore e.relPath = true) :
    walkStep render isBin patterns ignore ctx od e = Outcome.ok StepRes.skip
    ∧ walkLoop render isBin patterns ignore ctx od (e :: rest) =
        walkLoop render isBin patterns ignore ctx od rest
    ∧ (∀ sub : String, isIgnored ignore (e.relPath ++ sub) = true) := by
  have hstep : walkStep render isBin patterns ignore ctx od e = Outcome.ok StepRes.skip := by
    unfold walkStep
    by_cases hroot : e.relPath = "" ∨ e.relPath = "template.toml"
    · rw [if_pos hroot]
    · rw [if_neg hroot, if_pos (by simp [h])]
  refine ⟨hstep, ?_, fun sub => isIgnored_append ignore e.relPath sub h⟩
  conv_lhs => rw [walkLoop]
  rw [hstep]

/-- C5 witness: with ignore entry secret, the file secret/key.txt is
skipped and any extension of its path stays ignored. -/
theorem c5_witness :
    walkStep miniRender neverBin [] ["secret"] demoCtx "out"
        { relPath := "secret/key.txt", isDir := false } = Outcome.ok StepRes.skip
    ∧ isIgnored ["secret"] ("secret/key.txt" ++ "/sub") = true := by
  have h := c5_theorem miniRender neverBin [] ["secret"] demoCtx "out"
    { relPath := "secret/key.txt", isDir := false } [] (by decide)
  exact ⟨h.1, h.2.2 "/sub"⟩

/-- C6: a cleanup rule whose trigger name is absent from the answers, or
collected with a value different from the trigger value, contributes
nothing; a matched rule contributes, for each rendered path, a recursive
directory delete when the joined target is a directory, a single file
delete when it is a file, and nothing at all, without error, when the
target does not exist. -/
theorem c6_theorem (render : Renderer) (vals : Ctx) (fs : String → PathKind) (od : String)
    (rule : CleanupRule) (rest : List CleanupRule) :
    (Ctx.get vals rule.name = none →
      cleanupLoop render vals fs od (rule :: rest) = cleanupLoop render vals fs od rest)
    ∧ (∀ v, Ctx.get vals rule.name = some v → v ≠ rule.value →
      cleanupLoop render vals fs od (rule :: rest) = cleanupLoop render vals fs od rest)
    ∧ (∀ v, Ctx.get vals rule.name = some v → v = rule.value →
      cleanupLoop render vals fs od (rule :: rest) =
        match cleanupPaths render vals fs od rule.paths with
        | .err k => .err k
        | .crash m => .crash m
        | .ok as => Outcome.map (fun bs => as ++ bs) (cleanupLoop render vals fs od rest))
    ∧ (∀ p ps dest, render p vals = Except.ok dest →
        (fs (pathJoin od dest) = PathKind.absent →
          cleanupPaths render vals fs od (p :: ps) = cleanupPaths render vals fs od ps)
        ∧ (fs (pathJoin od dest) = PathKind.dir →
          cleanupPaths render vals fs od (p :: ps) =
            Outcome.map (fun as => Action.deleteDirAll (pathJoin od dest) :: as)
              (cleanupPaths render vals fs od ps))
        ∧ (fs (pathJoin od dest) = PathKind.file →
          cleanupPaths render vals fs od (p :: ps) =
            Outcome.map (fun as => Action.deleteFile (pathJoin od dest) :: as)
              (cleanupPaths render vals fs od ps))) := by
  refine ⟨?_, ?_, ?_, ?_⟩
  · intro hnone
    conv_lhs => rw [cleanupLoop]
    rw [hnone]
  · intro v hv hne
    conv_lhs => rw [cleanupLoop]
    rw [hv]
    simp [hne]
  · intro v hv heq
    conv_lhs => rw [cleanupLoop]
    rw [hv]
    simp [heq]
  · intro p ps dest hrp
    refine ⟨?_, ?_, ?_⟩ <;> intro hfs
    all_goals conv_lhs => rw [cleanupPaths]
    all_goals rw [hrp]
    all_goals simp [hfs]

/-- C6 witness: the scenario C rule triggering on use_docker being false is
skipped whole when use_docker was collected as true. -/
theorem c6_witness :
    cleanupLoop miniRender [("use_docker", TVal.boolean true)] dockerFs "out" [dockerRule] =
      cleanupLoop miniRender [("use_docker", TVal.boolean true)] dockerFs "out" [] :=
  ((c6_theorem miniRender [("use_docker", TVal.boolean true)] dockerFs "out" dockerRule []).2.1)
    (TVal.boolean true) rfl (by decide)

/-- C7: the walk contributes no action for the template root (empty
relative path) and none for the definition file template.toml. -/
theorem c7_theorem (render : Renderer) (isBin : List Nat → Bool)
    (patterns : List GlobPattern) (ignore : List String) (ctx : Ctx) (od : String)
    (e : Entry) (rest : List Entry)
    (h : e.relPath = "" ∨ e.relPath = "template.toml") :
    walkStep render isBin patterns ignore ctx od e = Outcome.ok StepRes.skip
    ∧ walkLoop render isBin patterns ignore ctx od (e :: rest) =
        walkLoop render isBin patterns ignore ctx od rest := by
  have hstep : walkStep render isBin patterns ignore ctx od e = Outcome.ok StepRes.skip := by
    unfold walkStep
    rw [if_pos h]
  refine ⟨hstep, ?_⟩
  conv_lhs => rw [walkLoop]
  rw [hstep]

/-- C7 witness: the root entry is skipped and the definition file entry
contributes nothing to the walk. -/
theorem c7_witness :
    walkStep miniRender neverBin [] [] demoCtx "out" { relPath := "", isDir := true } =
      Outcome.ok StepRes.skip
    ∧ walkLoop miniRender neverBin [] [] demoCtx "out"
        [{ relPath := "template.toml", isDir := false }] =
        walkLoop miniRender neverBin [] [] demoCtx "out" [] := by
  have h1 := c7_theorem miniRender neverBin [] [] demoCtx "out"
    { relPath := "", isDir := true } [] (Or.inl rfl)
  have h2 := c7_theorem miniRender neverBin [] [] demoCtx "out"
    { relPath := "template.toml", isDir := false } [] (Or.inr rfl)
  exact ⟨h1.1, h2.2⟩

/-- C8: under the render collaborator contract that a template without a
variable reference renders to itself, a non-skipped walked entry whose
relative path has no variable reference gets, as destination, exactly the
source relative path joined under the output root: a directory entry
creates that directory, and any action the entry contributes touches that
path. -/
theorem c8_theorem (render : Renderer) (isBin : List Nat → Bool)
    (patterns : List GlobPattern) (ignore : List String) (ctx : Ctx) (od : String)
    (e : Entry)
    (hr : ∀ s, hasVarRef s = false → render s ctx = Except.ok s)
    (hp : hasVarRef e.relPath = false)
    (hroot : ¬(e.relPath = "" ∨ e.relPath = "template.toml"))
    (hig : isIgnored ignore e.relPath = false) :
    render e.relPath ctx = Except.ok e.relPath
    ∧ (e.isDir = true →
        walkStep render isBin patterns ignore ctx od e =
          Outcome.ok (StepRes.act (Action.createDir (pathJoin od e.relPath))))
    ∧ (∀ a, walkStep render isBin patterns ignore ctx od e = Outcome.ok (StepRes.act a) →
        a.dest = pathJoin od e.relPath) := by
  have hre := hr e.relPath hp
  have hdir : e.isDir = true →
      walkStep render isBin patterns ignore ctx od e =
        Outcome.ok (StepRes.act (Action.createDir (pathJoin od e.relPath))) := by
    intro hd
    unfold walkStep
    rw [if_neg hroot, if_neg (by simp [hig]), hre]
    simp [hd]
  refine ⟨hre, hdir, ?_⟩
  intro a ha
  by_cases hd : e.isDir = true
  · rw [hdir hd] at ha
    simp at ha
    subst ha
    rfl
  · have hw := walkStep_file render isBin patterns ignore ctx od e e.relPath
      (by simpa using hd) hroot hig hre
    rw [hw] at ha
    by_cases hb : (patterns.any (fun p => globMatch p (pathJoin od e.relPath)) || isBin e.content) = true
    · rw [if_pos hb] at ha
      simp at ha
      subst ha
      rfl
    · rw [if_neg hb] at ha
      by_cases hv : utf8Valid e.content = true
      · rw [if_pos hv] at ha
        cases hrc : render (utf8Decode e.content) ctx with
        | ok c =>
          rw [hrc] at ha
          simp at ha
          subst ha
          rfl
        | error m =>
          rw [hrc] at ha
          simp at ha
      · rw [if_neg hv] at ha
        simp at ha

/-- C8 witness: the directory docs, whose name holds no variable
reference, is created at the output root joined with its own relative
path. -/
theorem c8_witness :
    walkStep miniRender neverBin [] [] demoCtx "out" docsEntry =
      Outcome.ok (StepRes.act (Action.createDir (pathJoin "out" "docs"))) :=
  ((c8_theorem miniRender neverBin [] [] demoCtx "out" docsEntry
      (fun s h => miniRender_plain_id s demoCtx h) (by decide) (by decide) rfl).2.1) rfl

/-- C9: the three phases of a generation run are strictly ordered.  A
failure of the answer resolver is the whole result and no filesystem
action is produced; when the resolver succeeds, its full context feeds the
walk and the cleanup alike, the walk result comes first in the action
list, the cleanup runs only on a successful walk, and its actions follow
all walk actions, after the optional creation of the output root. -/
theorem c9_theorem (pr : Prompter) (render : Renderer) (isBin : List Nat → Bool)
    (fs : String → PathKind) (d : TemplateDefinition) (odE : Bool) (od : String)
    (entries : List Entry) :
    (∀ k, askQuestions pr d.vars [] = Outcome.err k →
      generate pr render isBin fs true (some d) odE od entries = Outcome.err k)
    ∧ (∀ m, askQuestions pr d.vars [] = Outcome.crash m →
      generate pr render isBin fs true (some d) odE od entries = Outcome.crash m)
    ∧ (∀ vals P, askQuestions pr d.vars [] = Outcome.ok vals →
      compilePatterns d.copy_without_render = some P →
      generate pr render isBin fs true (some d) odE od entries =
        match walkLoop render isBin P d.ignore vals od entries with
        | .err k => .err k
        | .crash m => .crash m
        | .ok ws =>
          match cleanupLoop render vals fs od d.cleanup with
          | .err k => .err k
          | .crash m => .crash m
          | .ok cs => .ok ((if odE then [] else [Action.createDir od]) ++ ws ++ cs)) := by
  refine ⟨?_, ?_, ?_⟩
  · intro k hk
    unfold generate
    simp [hk]
  · intro m hm
    unfold generate
    simp [hm]
  · intro vals P h1 h2
    unfold generate
    simp [h1, h2]

/-- C9 witness: the scenario C run renders the Dockerfile during the walk
and deletes it in the cleanup phase afterwards, in that order, with the
same collected answer driving both phases. -/
theorem c9_witness :
    generate defPrompter miniRender neverBin dockerFs true (some dockerDef) true "out"
        [dockerEntry] =
      Outcome.ok [Action.writeFile "out/Dockerfile" "FROM", Action.deleteFile "out/Dockerfile"] :=
  ((c9_theorem defPrompter miniRender neverBin dockerFs dockerDef true "out" [dockerEntry]).2.2
      [("use_docker", TVal.boolean false)] [] (by decide) rfl).trans (by decide)

/-- C10: a copy_without_render entry that Pattern::new rejects makes
generation abort by panic, for every entry list alike, before any walk
output, and no error value is returned; with only valid patterns the walk
receives the list compiled once before it starts and the run proceeds over
it. -/
theorem c10_theorem (pr : Prompter) (render : Renderer) (isBin : List Nat → Bool)
    (fs : String → PathKind) (d : TemplateDefinition) (odE : Bool) (od : String) :
    (∀ vals, askQuestions pr d.vars [] = Outcome.ok vals →
      compilePatterns d.copy_without_render = none →
      ∀ entries, generate pr render isBin fs true (some d) odE od entries =
          Outcome.crash "called Result::unwrap() on an Err value: PatternError"
        ∧ (generate pr render isBin fs true (some d) odE od entries).isErr = false)
    ∧ (∀ vals P entries, askQuestions pr d.vars [] = Outcome.ok vals →
      compilePatterns d.copy_without_render = some P →
      generate pr render isBin fs true (some d) odE od entries =
        match walkLoop render isBin P d.ignore vals od entries with
        | .err k => .err k
        | .crash m => .crash m
        | .ok ws =>
          match cleanupLoop render vals fs od d.cleanup with
          | .err k => .err k
          | .crash m => .crash m
          | .ok cs => .ok ((if odE then [] else [Action.createDir od]) ++ ws ++ cs)) := by
  refine ⟨?_, ?_⟩
  · intro vals h1 h2 entries
    have hg : generate pr render isBin fs true (some d) odE od entries =
        Outcome.crash "called Result::unwrap() on an Err value: PatternError" := by
      unfold generate
      simp [h1, h2]
    exact ⟨hg, by rw [hg]; rfl⟩
  · intro vals P entries h1 h2
    unfold generate
    simp [h1, h2]

/-- C10 witness: the unclosed character class pattern crashes the run
before the walk, with no error value returned. -/
theorem c10_witness :
    generate defPrompter miniRender neverBin emptyFs true (some badPatDef) true "out"
        [docsEntry] =
      Outcome.crash "called Result::unwrap() on an Err value: PatternError"
    ∧ (generate defPrompter miniRender neverBin emptyFs true (some badPatDef) true "out"
        [docsEntry]).isErr = false :=
  (c10_theorem defPrompter miniRender neverBin emptyFs badPatDef true "out").1
    [] rfl (by decide) [docsEntry]

end Kickstart
